import Mathlib

/-!
# Verification of the debounce coordinator

A shallow embedding of the debounce coordinator (`pkg/execution/debounce`)
of the khulnasoft/inngest repository, together with theorems checking the
natural-language specification against it.

Conventions of the embedding:

* Go `time.Time` / `time.Duration` values are modelled as integer
  milliseconds (`Millis := Int`); the only sub-millisecond quantity in the
  coordinator is the 50 ms buffer, so nothing is lost.
* `uuid.UUID` and `ulid.ULID` are modelled as wrapped strings: the
  coordinator only ever compares them and takes their string form.
* Effectful collaborators (the store scripts, the delay queue, the
  expression evaluator, JSON marshalling) are modelled by passing their
  outcome as an argument and recording the queue operations the
  coordinator performs as an explicit list of `QueueOp` actions.
* The three Lua scripts are embedded files that are not part of the Go
  sources; where a claim depends on a script's semantics the script is
  modelled from the specification (each such definition is marked
  `Modelled from the spec:`).
-/

namespace Inngest.Debounce

/-- Wall-clock time and durations, in milliseconds (`time.UnixMilli`). -/
abbrev Millis := Int

/-- `ulid.ULID`, modelled by its canonical string form. -/
structure ULID where
  str : String
deriving DecidableEq

/-- `uuid.UUID`, modelled by its canonical string form. -/
structure UUID where
  str : String
deriving DecidableEq

/-- The zero `ulid.ULID` (Go zero value). -/
def zeroULID : ULID := ⟨"00000000000000000000000000"⟩

/-- The fragment of `event.Event` the debouncer reads: its millisecond
timestamp (`Event.Timestamp`).  The rest of the event is opaque to the
coordinator and carried as an uninterpreted payload string. -/
structure Event where
  name : String
  timestamp : Millis
  dataRepr : String
deriving DecidableEq

/-- `DebounceItem`: the stored payload and triggering-event carrier.
`timeout = 0` models the absent Go zero value (the JSON tag is
`t,omitempty`). -/
structure DebounceItem where
  accountID : UUID
  workspaceID : UUID
  appID : UUID
  functionID : UUID
  functionVersion : Int
  eventID : ULID
  event : Event
  timeout : Millis := 0
  functionPausedAt : Option Millis := none
deriving DecidableEq

/-- `DebouncePayload`: what the delayed queue job carries.  Note that the
structure has no event field: the job never embeds the event. -/
structure DebouncePayload where
  debounceID : ULID
  accountID : UUID
  workspaceID : UUID
  appID : UUID
  functionID : UUID
  functionVersion : Int
deriving DecidableEq

/-- `DebounceItem.QueuePayload`: projects the identifying fields into a
`DebouncePayload`; the `DebounceID` field is left at its zero value, as in
the Go method, and filled in by `queueItem`. -/
def DebounceItem.QueuePayload (d : DebounceItem) : DebouncePayload :=
  { debounceID := zeroULID
    accountID := d.accountID
    workspaceID := d.workspaceID
    appID := d.appID
    functionID := d.functionID
    functionVersion := d.functionVersion }

/-- `state.Identifier`, restricted to the fields `queueItem` sets. -/
structure Identifier where
  accountID : UUID
  workspaceID : UUID
  appID : UUID
  workflowID : UUID
deriving DecidableEq

/-- `queue.Item`, restricted to the fields `queueItem` sets. -/
structure QueueItem where
  jobID : Option String
  workspaceID : UUID
  identifier : Identifier
  kind : String
  payload : DebouncePayload
deriving DecidableEq

/-- `queue.KindDebounce`. -/
def KindDebounce : String := "debounce"

/-- Errors.  Sentinels are distinct constructors; `wrap msg e` models
`fmt.Errorf("msg: %w", e)` and `msg s` a fresh `fmt.Errorf` with no
wrapped cause.  `redisNil` is the rueidis nil-reply error and
`transport s` any other store/transport error. -/
inductive GoErr where
  | debounceExists
  | debounceNotFound
  | debounceInProgress
  | deadlineExceeded
  | queueItemAlreadyLeased
  | redisNil
  | transport (s : String)
  | wrap (msg : String) (e : GoErr)
  | msg (s : String)
deriving DecidableEq

/-- The fixed 50 ms scheduling buffer (`var buffer = 50 * time.Millisecond`). -/
def buffer : Millis := 50

/-- One second, in milliseconds (`time.Second`). -/
def second : Millis := 1000

/-- A queue operation performed by the coordinator, with its absolute
scheduled time in milliseconds. -/
inductive QueueOp where
  | enqueue (qi : QueueItem) (time : Millis)
  | requeueByJobID (jobID : String) (time : Millis)
deriving DecidableEq

/-- `debouncer.queueItem`: builds the delay-queue job for a debounce.  The
job id is the debounce id's string form and the payload is the item's
`QueuePayload` with the debounce id filled in. -/
def queueItem (di : DebounceItem) (debounceID : ULID) : QueueItem :=
  { jobID := some debounceID.str
    workspaceID := di.workspaceID
    identifier :=
      { accountID := di.accountID
        workspaceID := di.workspaceID
        appID := di.appID
        workflowID := di.functionID }
    kind := KindDebounce
    payload := { di.QueuePayload with debounceID := debounceID } }

/-! ## The item map (Redis hash) -/

/-- Lookup of a field in the debounce item hash (`HGET` semantics:
first binding wins; `none` is the nil reply). -/
def lookupItem (items : List (ULID × DebounceItem)) (id : ULID) : Option DebounceItem :=
  (items.find? (fun p => p.1 = id)).map Prod.snd

/-- `HSET` semantics on the item hash: overwrite the field. -/
def setItem (items : List (ULID × DebounceItem)) (id : ULID) (it : DebounceItem) :
    List (ULID × DebounceItem) :=
  (id, it) :: items.filter (fun p => p.1 ≠ id)

/-- `HDEL` semantics on the item hash: remove the field; removing an
absent field is a no-op (Redis returns 0, not an error). -/
def hdel (items : List (ULID × DebounceItem)) (id : ULID) : List (ULID × DebounceItem) :=
  items.filter (fun p => p.1 ≠ id)

/-! ## `GetDebounceItem` and `DeleteDebounceItem` -/

/-- A raw reply from the store for a single read: the nil reply (field
absent), a byte payload, or a transport error. -/
inductive RedisReply where
  | nilReply
  | bytes (s : String)
  | err (s : String)
deriving DecidableEq

/-- `rueidis` `AsBytes`: the byte slice and the error of a reply.  On the
nil reply the error is `redisNil`; on a transport error the byte slice is
empty. -/
def asBytes : RedisReply → String × Option GoErr
  | .nilReply => ("", some .redisNil)
  | .bytes s => (s, none)
  | .err e => ("", some (.transport e))

/-- `debouncer.GetDebounceItem`.  `unmarshal` stands for
`json.Unmarshal` into a `DebounceItem` (`none` = error).  Mirrors the Go
source: only a nil reply is turned into `ErrDebounceNotFound`; any other
reply error is NOT returned — the code falls through and unmarshals the
(then empty) byte slice. -/
def GetDebounceItem (reply : RedisReply) (unmarshal : String → Option DebounceItem) :
    Except GoErr DebounceItem :=
  let r := asBytes reply
  if r.2 = some GoErr.redisNil then
    .error GoErr.debounceNotFound
  else
    match unmarshal r.1 with
    | none => .error (GoErr.msg "error unmarshalling debounce item")
    | some di => .ok di

/-- `debouncer.DeleteDebounceItem`.  `cmdErr` is the error of the `HDEL`
command (`none` = success; Redis never returns a nil reply for `HDEL`,
but the code checks for it and treats it as success).  Returns the error
result and the resulting item map. -/
def DeleteDebounceItem (items : List (ULID × DebounceItem)) (id : ULID)
    (cmdErr : Option GoErr) : Option GoErr × List (ULID × DebounceItem) :=
  match cmdErr with
  | some e =>
    if e = GoErr.redisNil then (none, hdel items id)
    else (some (GoErr.wrap "error removing debounce" e), items)
  | none => (none, hdel items id)

/-! ## `debounceKey` -/

/-- A value produced by the expression evaluator, with the display form
`fmt.Sprintf` with the v verb would print. -/
inductive ExprValue where
  | vStr (s : String)
  | vInt (n : Int)
  | vBool (b : Bool)
deriving DecidableEq

/-- The Go default display form of an evaluator result
(`fmt.Sprintf` with the v verb). -/
def ExprValue.display : ExprValue → String
  | .vStr s => s
  | .vInt n => toString n
  | .vBool b => if b then "true" else "false"

/-- `debouncer.debounceKey`.  `keyExpr` is `fn.Debounce.Key`; `eval`
stands for `expressions.Evaluate` applied to the key expression and the
event map (`.error` = evaluation error).  Per the source, evaluation
errors are logged and swallowed, yielding the literal key string
"\x3cinvalid\x3e". -/
def debounceKey (fnID : UUID) (keyExpr : Option String)
    (eval : String → Except String ExprValue) : String × Option GoErr :=
  match keyExpr with
  | none => (fnID.str, none)
  | some expr =>
    match eval expr with
    | .error _ => ("<invalid>", none)
    | .ok (.vStr s) => (s, none)
    | .ok v => (v.display, none)

/-! ## `newDebounce` (coordinator side)

The script call itself is effectful; the coordinator-side embedding takes
the script's outcome (`scriptOut`, the result of `ToString()` on the exec
reply) as an argument, and records the TTL argument the coordinator hands
to the script and the queue operations it performs. -/

/-- The TTL argument handed to the Lua scripts:
`strconv.Itoa(int(ttl.Seconds()))`, i.e. the duration truncated (toward
zero) to whole seconds.  `ttlMs` is the parsed debounce period in
milliseconds. -/
def ttlSecondsArg (ttlMs : Millis) : Int := Int.tdiv ttlMs 1000

/-- Lines 284–287 of the coordinator: before `newDebounce` invokes the
script, it stamps the item's `Timeout` with `time.Now().Add(*timeout)`
in unix milliseconds whenever the function has a debounce timeout.
`nowT` is that second `time.Now()` reading and `fnTimeout` the result of
`fn.Debounce.TimeoutDuration()` in milliseconds. -/
def newDebounceItem (di : DebounceItem) (fnTimeout : Option Millis) (nowT : Millis) :
    DebounceItem :=
  match fnTimeout with
  | some t => { di with timeout := nowT + t }
  | none => di

/-- The result of `debouncer.newDebounce`: the returned debounce-id
pointer and error, the queue operations performed, and the TTL argument
handed to the script (`none` when the script was never invoked). -/
structure NewResult where
  id : Option ULID
  err : Option GoErr
  ops : List QueueOp
  ttlArg : Option Int
deriving DecidableEq

/-- `debouncer.newDebounce`, coordinator side.  Arguments stand for the
effectful collaborators: `keyRes` is the `debounceKey` outcome, `now`
the `time.Now()` read at the top of the function, `scriptOut` the
`newDebounce` script reply, `enqueueErr` the delay-queue `Enqueue`
outcome, and `parse` is `ulid.Parse`.  `di` is the item after the
`Timeout` stamping of `newDebounceItem` (the script and the enqueued
job both see that stamped copy). -/
def newDebounceGo (di : DebounceItem) (keyRes : Except GoErr String) (now : Millis)
    (ttlMs : Millis) (debounceID : ULID) (scriptOut : Except GoErr String)
    (enqueueErr : Option GoErr) (parse : String → Option ULID) : NewResult :=
  match keyRes with
  | .error e => ⟨none, some e, [], none⟩
  | .ok _ =>
    match scriptOut with
    | .error e => ⟨none, some (.wrap "error creating debounce" e), [], some (ttlSecondsArg ttlMs)⟩
    | .ok out =>
      if out = "0" then
        let op := QueueOp.enqueue (queueItem di debounceID) (now + ttlMs + buffer + second)
        match enqueueErr with
        | some e =>
          ⟨some debounceID, some (.wrap "error enqueueing debounce job" e), [op],
            some (ttlSecondsArg ttlMs)⟩
        | none => ⟨some debounceID, none, [op], some (ttlSecondsArg ttlMs)⟩
      else
        match parse out with
        | none =>
          ⟨none, some (.msg "unknown new debounce return value"), [], some (ttlSecondsArg ttlMs)⟩
        | some existing => ⟨some existing, some .debounceExists, [], some (ttlSecondsArg ttlMs)⟩

/-! ## `updateDebounce` (coordinator side) -/

/-- The result of `debouncer.updateDebounce`: the returned error, the
queue operations performed, and the TTL argument handed to the script. -/
structure UpdateResult where
  err : Option GoErr
  ops : List QueueOp
  ttlArg : Option Int
deriving DecidableEq

/-- `debouncer.updateDebounce`, coordinator side.  `keyRes` is the
`debounceKey` outcome, `now` the `time.Now()` read at the top of the
function, `scriptOut` the `updateDebounce` script reply as an integer,
`requeueErr` the outcome of `RequeueByJobID`, and `enqueueErr` the
outcome of the `Enqueue` on the -3 branch.  On a reply outside
{-1,-2,-3} the coordinator treats the reply as the effective TTL in
seconds and requeues the job by the debounce id to
`now + ttl + buffer + 1s`; `ErrQueueItemAlreadyLeased` from the requeue
is translated to `ErrDebounceInProgress`. -/
def updateDebounceGo (di : DebounceItem) (keyRes : Except GoErr String) (now : Millis)
    (ttlMs : Millis) (debounceID : ULID) (scriptOut : Except GoErr Int)
    (requeueErr : Option GoErr) (enqueueErr : Option GoErr) : UpdateResult :=
  match keyRes with
  | .error e => ⟨some e, [], none⟩
  | .ok _ =>
    match scriptOut with
    | .error e => ⟨some (.wrap "error creating debounce" e), [], some (ttlSecondsArg ttlMs)⟩
    | .ok out =>
      if out = -1 then ⟨some .debounceInProgress, [], some (ttlSecondsArg ttlMs)⟩
      else if out = -2 then ⟨none, [], some (ttlSecondsArg ttlMs)⟩
      else if out = -3 then
        ⟨enqueueErr,
          [QueueOp.enqueue (queueItem di debounceID) (now + ttlMs + buffer + second)],
          some (ttlSecondsArg ttlMs)⟩
      else
        let actualTTL : Millis := second * out
        let op := QueueOp.requeueByJobID debounceID.str (now + actualTTL + buffer + second)
        match requeueErr with
        | some e =>
          if e = GoErr.queueItemAlreadyLeased then
            ⟨some .debounceInProgress, [op], some (ttlSecondsArg ttlMs)⟩
          else
            ⟨some (.wrap "error requeueing debounce job" e), [op], some (ttlSecondsArg ttlMs)⟩
        | none => ⟨none, [op], some (ttlSecondsArg ttlMs)⟩

/-! ## The retry loop `debouncer.debounce` -/

/-- The update errors the retry loop retries on (line 239 of the
coordinator): `context.DeadlineExceeded`, `ErrDebounceInProgress`,
`ErrDebounceNotFound`, compared by sentinel identity. -/
def isRetryableUpdateErr (e : GoErr) : Bool :=
  e = GoErr.deadlineExceeded || e = GoErr.debounceInProgress || e = GoErr.debounceNotFound

/-- The outcome of the retry loop: the error returned (`none` = success)
and the total time spent sleeping between retries, in milliseconds. -/
structure LoopResult where
  outcome : Option GoErr
  waitMs : Nat
deriving DecidableEq

/-- One pass of the body of `debouncer.debounce` (lines 225–254 without
the retry bookkeeping): given the `newDebounce` outcome and the
`updateDebounce` error of this attempt, either the loop returns now
(`.done`) or a retryable sentinel was hit (`.retry e`), in which case
the caller consults the retry budget. -/
inductive AttemptOut where
  | done (r : LoopResult)
  | retry (e : GoErr)
deriving DecidableEq

/-- The decision one attempt of `debouncer.debounce` makes: success of
`newDebounce` returns nil; a non-`ErrDebounceExists` error is returned;
a missing id under `ErrDebounceExists` is an error; otherwise the
`updateDebounce` error decides: a retryable sentinel triggers a retry,
anything else (including nil) is returned as is. -/
def debounceAttempt (newRes : Option ULID × Option GoErr) (updErr : Option GoErr) :
    AttemptOut :=
  match newRes with
  | (_, none) => .done ⟨none, 0⟩
  | (id?, some ne) =>
    if ne = GoErr.debounceExists then
      match id? with
      | none => .done ⟨some (GoErr.msg "expected debounce ID when debounce exists"), 0⟩
      | some _ =>
        match updErr with
        | some e => if isRetryableUpdateErr e then .retry e else .done ⟨some e, 0⟩
        | none => .done ⟨none, 0⟩
    else .done ⟨some ne, 0⟩

/-- `debouncer.debounce`, the bounded retry loop.  `newRes n` is the
(id, error) pair returned by the `newDebounce` attempt number `n`, and
`updErr n` the error of the `updateDebounce` attempt number `n`.  The
source recurses with counter `n+1` and stops retrying when `n == 5`;
here the remaining-retries count `left` (initially 5, so `left = 5 - n`
on every reachable call and `left = 0` exactly when `n == 5`) makes the
recursion structural.  Each retry sleeps 750 ms
(`<-time.After(750 * time.Millisecond)`) before re-entering the whole
create-or-update flow at `newDebounce`. -/
def debounceAux (newRes : Nat → Option ULID × Option GoErr) (updErr : Nat → Option GoErr)
    (n : Nat) : Nat → LoopResult
  | 0 =>
    match debounceAttempt (newRes n) (updErr n) with
    | .done r => r
    | .retry e => ⟨some (GoErr.wrap "unable to update debounce" e), 0⟩
  | left + 1 =>
    match debounceAttempt (newRes n) (updErr n) with
    | .done r => r
    | .retry _ =>
      let r := debounceAux newRes updErr (n + 1) left
      ⟨r.outcome, r.waitMs + 750⟩

/-- `debouncer.Debounce`'s inner loop entered at `n = 0` (after the
debounce config and period were validated): up to 5 retries remain. -/
def debounceGo (newRes : Nat → Option ULID × Option GoErr)
    (updErr : Nat → Option GoErr) : LoopResult :=
  debounceAux newRes updErr 0 5

/-! ## The store scripts, modelled from the spec

The Lua sources (`lua/newDebounce.lua`, `lua/updateDebounce.lua`,
`lua/start.lua`) are embedded assets of the package and are not among
the Go sources; their semantics below are modelled from §4.3 and §4.4 of
the specification. -/

/-- The store state visible to the two debounce scripts, restricted to
one `(function_id, debounce_key)` pair: the pointer entry and its
expiry (in seconds), the shared item hash, and whether the delay-queue
item identified by the job-id hash is currently leased. -/
structure StoreState where
  pointer : Option ULID
  pointerTTL : Int := 0
  items : List (ULID × DebounceItem)
  queueJobLeased : Bool := false
deriving DecidableEq

/-- Modelled from the spec: the `newDebounce` Lua script (§4.3), an
embedded asset not present in the Go sources.  Atomically: if the
pointer is absent, set it to the new debounce id with expiry
`ttlSeconds`, write the item into the hash, and return "0"; otherwise
return the existing pointer value. -/
def newDebounceScript (st : StoreState) (debounceID : ULID) (item : DebounceItem)
    (ttlSeconds : Int) : String × StoreState :=
  match st.pointer with
  | none =>
    ("0",
      { st with
          pointer := some debounceID
          pointerTTL := ttlSeconds
          items := setItem st.items debounceID item })
  | some existing => (existing.str, st)

/-- Modelled from the spec: the `updateDebounce` Lua script (§4.4), an
embedded asset not present in the Go sources.  Atomic checks, in the
spec's order: pointer missing → -1; hash item missing → -3; incoming
event older than the stored event → -2; then the effective TTL is
`min(ttl, remaining-to-timeout)` in seconds when the stored item carries
a timeout (remaining time converted to seconds by floor division, no
clamp — the spec flags the negative case as unclamped); a leased queue
job → -1; otherwise the item is overwritten (keeping the stored
timeout, which per invariant 5 of the spec is fixed at creation), the
pointer expiry is reset to the effective TTL, and the effective TTL is
returned. -/
def updateDebounceScript (st : StoreState) (item : DebounceItem) (ttlSeconds : Int)
    (nowMs : Millis) (eventMs : Millis) : Int × StoreState :=
  match st.pointer with
  | none => (-1, st)
  | some ptr =>
    match lookupItem st.items ptr with
    | none => (-3, st)
    | some stored =>
      if eventMs < stored.event.timestamp then (-2, st)
      else
        let effTTL : Int :=
          if stored.timeout ≠ 0 then min ttlSeconds ((stored.timeout - nowMs) / 1000)
          else ttlSeconds
        if st.queueJobLeased then (-1, st)
        else
          (effTTL,
            { st with
                items := setItem st.items ptr { item with timeout := stored.timeout }
                pointerTTL := effTTL })

/-- The composition of the coordinator-side `updateDebounce` with the
modelled script: the script runs on the store state with the TTL
argument `ttlSecondsArg ttlMs`, the script-side now reading `nowArg`
(line 364's second `time.Now()`), and the incoming event timestamp from
the item; the coordinator then acts on the integer reply. -/
def updateDebounceFull (st : StoreState) (di : DebounceItem) (keyRes : Except GoErr String)
    (now nowArg : Millis) (ttlMs : Millis) (debounceID : ULID)
    (requeueErr : Option GoErr) (enqueueErr : Option GoErr) : UpdateResult × StoreState :=
  match keyRes with
  | .error e => (⟨some e, [], none⟩, st)
  | .ok k =>
    let r := updateDebounceScript st di (ttlSecondsArg ttlMs) nowArg di.event.timestamp
    (updateDebounceGo di (.ok k) now ttlMs debounceID (.ok r.1) requeueErr enqueueErr, r.2)

/-! ## Concrete sample values (used to instantiate theorems) -/

/-- A sample account id. -/
def accA : UUID := ⟨"acct-1"⟩

/-- A sample workspace id. -/
def wsA : UUID := ⟨"ws-1"⟩

/-- A sample app id. -/
def appA : UUID := ⟨"app-1"⟩

/-- A sample function id. -/
def fnA : UUID := ⟨"fn-1"⟩

/-- A sample debounce id. -/
def demoID : ULID := ⟨"01HZX5S4Q9R8T7V6W5X4Y3Z2A1"⟩

/-- A sample stored debounce item (event timestamp 100). -/
def demoStored : DebounceItem :=
  { accountID := accA
    workspaceID := wsA
    appID := appA
    functionID := fnA
    functionVersion := 1
    eventID := ⟨"01EVT0"⟩
    event := ⟨"user.created", 100, "payload0"⟩
    timeout := 5000 }

/-- A sample incoming debounce item carrying an older event
(event timestamp 90). -/
def demoOlder : DebounceItem :=
  { demoStored with
      eventID := ⟨"01EVT1"⟩
      event := ⟨"user.created", 90, "payload1"⟩
      timeout := 0 }

/-- A sample incoming debounce item carrying a newer event
(event timestamp 200). -/
def demoNewer : DebounceItem :=
  { demoStored with
      eventID := ⟨"01EVT2"⟩
      event := ⟨"user.created", 200, "payload2"⟩
      timeout := 0 }

/-- A sample store state: the pointer designates `demoID` and the hash
holds `demoStored` under it. -/
def demoState : StoreState :=
  { pointer := some demoID
    pointerTTL := 2
    items := [(demoID, demoStored)]
    queueJobLeased := false }

/-- A sample `json.Unmarshal` stand-in: deserializes exactly the string
"OK" (to `demoStored`); anything else, including the empty payload, is
corrupt. -/
def demoUnmarshal : String → Option DebounceItem :=
  fun s => if s = "OK" then some demoStored else none

/-! ## Claims -/

/-- C3: when the `newDebounce` script replies "0" (created), the
coordinator performs exactly one enqueue: the job id is the new debounce
id's string form, the payload carries the debounce id plus the
identifying fields (and, by the shape of `DebouncePayload`, no event),
and the schedule is `now + ttl + 50 ms + 1 s`. -/
theorem newDebounce_created_enqueue (di : DebounceItem) (k : String) (now ttlMs : Millis)
    (debounceID : ULID) (parse : String → Option ULID) :
    newDebounceGo di (.ok k) now ttlMs debounceID (.ok "0") none parse =
      { id := some debounceID
        err := none
        ops := [QueueOp.enqueue
          { jobID := some debounceID.str
            workspaceID := di.workspaceID
            identifier :=
              { accountID := di.accountID
                workspaceID := di.workspaceID
                appID := di.appID
                workflowID := di.functionID }
            kind := KindDebounce
            payload :=
              { debounceID := debounceID
                accountID := di.accountID
                workspaceID := di.workspaceID
                appID := di.appID
                functionID := di.functionID
                functionVersion := di.functionVersion } }
          (now + ttlMs + buffer + second)]
        ttlArg := some (ttlSecondsArg ttlMs) } := rfl

/-- C4: when the `updateDebounce` script replies a positive integer `R`,
the coordinator requeues the existing job by the debounce id's string
form to `now + R seconds + 50 ms + 1 s` (whatever the requeue outcome),
and when the requeue reports the job as already leased the returned
error is the `ErrDebounceInProgress` sentinel, not the requeue error. -/
theorem updateDebounce_requeue_on_positive (di : DebounceItem) (k : String)
    (now ttlMs : Millis) (debounceID : ULID) (R : Int) (hR : 0 < R)
    (requeueErr : Option GoErr) :
    (updateDebounceGo di (.ok k) now ttlMs debounceID (.ok R) requeueErr none).ops =
      [QueueOp.requeueByJobID debounceID.str (now + second * R + buffer + second)] ∧
    (updateDebounceGo di (.ok k) now ttlMs debounceID (.ok R)
        (some GoErr.queueItemAlreadyLeased) none).err = some GoErr.debounceInProgress := by
  have h1 : ¬R = -1 := by omega
  have h2 : ¬R = -2 := by omega
  have h3 : ¬R = -3 := by omega
  refine ⟨?_, ?_⟩
  · cases requeueErr with
    | none => simp [updateDebounceGo, h1, h2, h3]
    | some e =>
      by_cases he : e = GoErr.queueItemAlreadyLeased <;>
        simp [updateDebounceGo, h1, h2, h3, he]
  · simp [updateDebounceGo, h1, h2, h3]

/-- Witness for C4 at `R = 3`, `now = 0`, `ttl = 1000 ms`. -/
theorem updateDebounce_requeue_on_positive_witness :
    (updateDebounceGo demoNewer (.ok "k") 0 1000 demoID (.ok 3) none none).ops =
      [QueueOp.requeueByJobID demoID.str (0 + second * 3 + buffer + second)] ∧
    (updateDebounceGo demoNewer (.ok "k") 0 1000 demoID (.ok 3)
        (some GoErr.queueItemAlreadyLeased) none).err = some GoErr.debounceInProgress :=
  updateDebounce_requeue_on_positive demoNewer "k" 0 1000 demoID 3 (by norm_num) none

/-- C6: when the `updateDebounce` script replies -3 (pointer present but
item missing), the coordinator enqueues a fresh job built by the same
`queueItem` construction and at the same `now + ttl + 50 ms + 1 s`
schedule as the `newDebounce` success path, and reports the enqueue
outcome (success here). -/
theorem updateDebounce_missing_item_reenqueue (di : DebounceItem) (k : String)
    (now ttlMs : Millis) (debounceID : ULID) (parse : String → Option ULID) :
    (updateDebounceGo di (.ok k) now ttlMs debounceID (.ok (-3)) none none).ops =
      [QueueOp.enqueue (queueItem di debounceID) (now + ttlMs + buffer + second)] ∧
    (updateDebounceGo di (.ok k) now ttlMs debounceID (.ok (-3)) none none).ops =
      (newDebounceGo di (.ok k) now ttlMs debounceID (.ok "0") none parse).ops ∧
    (updateDebounceGo di (.ok k) now ttlMs debounceID (.ok (-3)) none none).err = none :=
  ⟨rfl, rfl, rfl⟩

/-- C5: on an `updateDebounce` script reply of -2 (incoming event older
than the stored event) the coordinator returns success with no queue
operation; the modelled script reaches -2 exactly by leaving the store
untouched; and under `ErrDebounceExists` from `newDebounce` followed by
a nil `updateDebounce` error the outer loop returns success without
waiting. -/
theorem updateDebounce_out_of_order_noop :
    (∀ (di : DebounceItem) (k : String) (now ttlMs : Millis) (debounceID : ULID)
        (requeueErr enqueueErr : Option GoErr),
      updateDebounceGo di (.ok k) now ttlMs debounceID (.ok (-2)) requeueErr enqueueErr =
        ⟨none, [], some (ttlSecondsArg ttlMs)⟩) ∧
    (∀ (st : StoreState) (item : DebounceItem) (ttlS : Int) (nowMs eventMs : Millis)
        (ptr : ULID) (stored : DebounceItem),
      st.pointer = some ptr → lookupItem st.items ptr = some stored →
      eventMs < stored.event.timestamp →
      updateDebounceScript st item ttlS nowMs eventMs = (-2, st)) ∧
    (∀ (newRes : Nat → Option ULID × Option GoErr) (updErr : Nat → Option GoErr)
        (n left : Nat) (id : ULID),
      newRes n = (some id, some GoErr.debounceExists) → updErr n = none →
      debounceAux newRes updErr n left = ⟨none, 0⟩) := by
  refine ⟨fun di k now ttlMs debounceID requeueErr enqueueErr => rfl, ?_, ?_⟩
  · intro st item ttlS nowMs eventMs ptr stored hp hl hev
    simp only [updateDebounceScript, hp, hl]
    rw [if_pos hev]
  · intro newRes updErr n left id h1 h2
    cases left <;> simp [debounceAux, debounceAttempt, h1, h2]

/-- Witness for C5: the modelled script drops the older `demoOlder`
event (timestamp 90 against stored 100) leaving `demoState` unchanged,
and the loop returns success. -/
theorem updateDebounce_out_of_order_noop_witness :
    updateDebounceScript demoState demoOlder 5 200 90 = (-2, demoState) ∧
    debounceAux (fun _ => (some demoID, some GoErr.debounceExists)) (fun _ => none) 0 5 =
      ⟨none, 0⟩ :=
  ⟨updateDebounce_out_of_order_noop.2.1 demoState demoOlder 5 200 90 demoID demoStored
      (by decide) (by decide) (by decide),
    updateDebounce_out_of_order_noop.2.2 (fun _ => (some demoID, some GoErr.debounceExists))
      (fun _ => none) 0 5 demoID rfl rfl⟩

/-- Helper: removing a hash field twice is the same as removing it once. -/
theorem hdel_hdel (items : List (ULID × DebounceItem)) (id : ULID) :
    hdel (hdel items id) id = hdel items id := by
  simp [hdel, List.filter_filter]

/-- Helper: removing an absent hash field is a no-op. -/
theorem hdel_absent (items : List (ULID × DebounceItem)) (id : ULID)
    (h : lookupItem items id = none) : hdel items id = items := by
  rw [hdel, List.filter_eq_self]
  intro p hp
  rcases hfind : List.find? (fun q => decide (q.1 = id)) items with _ | v
  · have := List.find?_eq_none.mp hfind p hp
    simpa using this
  · rw [lookupItem, hfind] at h
    simp at h

/-- C8: `DeleteDebounceItem` is idempotent: a successful delete always
returns success (also when the field, perhaps already deleted, is
absent, in which case the store is untouched), and deleting twice
yields the same observable state and result as deleting once. -/
theorem deleteDebounceItem_idempotent (items : List (ULID × DebounceItem)) (id : ULID) :
    (DeleteDebounceItem items id none).1 = none ∧
    (lookupItem items id = none → DeleteDebounceItem items id none = (none, items)) ∧
    DeleteDebounceItem (DeleteDebounceItem items id none).2 id none =
      DeleteDebounceItem items id none := by
  refine ⟨rfl, fun h => ?_, ?_⟩
  · simp [DeleteDebounceItem, hdel_absent items id h]
  · simp [DeleteDebounceItem, hdel_hdel]

/-- Witness for C8: deleting `demoID` twice from the sample store equals
deleting it once, and deleting an id that is not present succeeds
without change. -/
theorem deleteDebounceItem_idempotent_witness :
    (DeleteDebounceItem demoState.items demoID none).1 = none ∧
    (DeleteDebounceItem [] demoID none = (none, [])) ∧
    DeleteDebounceItem (DeleteDebounceItem demoState.items demoID none).2 demoID none =
      DeleteDebounceItem demoState.items demoID none :=
  ⟨(deleteDebounceItem_idempotent demoState.items demoID).1,
    (deleteDebounceItem_idempotent [] demoID).2.1 rfl,
    (deleteDebounceItem_idempotent demoState.items demoID).2.2⟩

/-- C9: the debounce-key evaluator returns the function id's string form
when the function has no key expression; an evaluation error yields the
literal string "\x3cinvalid\x3e" (and no error); a string result is
returned as is; and a non-string result is stringified by its display
form. -/
theorem debounceKey_cases (fnID : UUID) (eval : String → Except String ExprValue) :
    debounceKey fnID none eval = (fnID.str, none) ∧
    (∀ (expr errMsg : String), eval expr = .error errMsg →
      debounceKey fnID (some expr) eval = ("<invalid>", none)) ∧
    (∀ (expr s : String), eval expr = .ok (.vStr s) →
      debounceKey fnID (some expr) eval = (s, none)) ∧
    (∀ (expr : String) (v : ExprValue), eval expr = .ok v → (∀ s, v ≠ .vStr s) →
      debounceKey fnID (some expr) eval = (v.display, none)) := by
  refine ⟨rfl, ?_, ?_, ?_⟩
  · intro expr errMsg h
    simp [debounceKey, h]
  · intro expr s h
    simp [debounceKey, h]
  · intro expr v h hv
    cases v with
    | vStr s => exact absurd rfl (hv s)
    | vInt n => simp [debounceKey, h]
    | vBool b => simp [debounceKey, h]

/-- Witness for C9 on three concrete evaluators: one failing, one
returning the string "user-1", one returning the integer 42. -/
theorem debounceKey_cases_witness :
    debounceKey fnA none (fun _ => .error "boom") = (fnA.str, none) ∧
    debounceKey fnA (some "event.data.x") (fun _ => .error "boom") = ("<invalid>", none) ∧
    debounceKey fnA (some "event.data.x") (fun _ => .ok (.vStr "user-1")) = ("user-1", none) ∧
    debounceKey fnA (some "event.data.x") (fun _ => .ok (.vInt 42)) =
      ((ExprValue.vInt 42).display, none) :=
  ⟨(debounceKey_cases fnA (fun _ => .error "boom")).1,
    (debounceKey_cases fnA (fun _ => .error "boom")).2.1 "event.data.x" "boom" rfl,
    (debounceKey_cases fnA (fun _ => .ok (.vStr "user-1"))).2.2.1 "event.data.x" "user-1" rfl,
    (debounceKey_cases fnA (fun _ => .ok (.vInt 42))).2.2.2 "event.data.x" (.vInt 42) rfl
      (fun s => by simp)⟩

/-- C7, evaluated at the failing input: a nil reply yields
`ErrDebounceNotFound` and a corrupt payload yields the deserialization
error, as claimed; but when the store read fails with a transport error
the code ignores the reply error (`GetDebounceItem` only tests for the
nil reply), unmarshals the then-empty byte slice, and returns the
deserialization error — the transport error is not propagated. -/
theorem getDebounceItem_transport_error_swallowed :
    GetDebounceItem RedisReply.nilReply demoUnmarshal =
      .error GoErr.debounceNotFound ∧
    GetDebounceItem (RedisReply.bytes "corrupt-json") demoUnmarshal =
      .error (GoErr.msg "error unmarshalling debounce item") ∧
    GetDebounceItem (RedisReply.bytes "OK") demoUnmarshal = .ok demoStored ∧
    GetDebounceItem (RedisReply.err "connection refused") demoUnmarshal =
      .error (GoErr.msg "error unmarshalling debounce item") ∧
    GetDebounceItem (RedisReply.err "connection refused") demoUnmarshal ≠
      .error (GoErr.transport "connection refused") := by
  refine ⟨rfl, rfl, rfl, rfl, ?_⟩
  have h4 : GetDebounceItem (RedisReply.err "connection refused") demoUnmarshal =
      Except.error (GoErr.msg "error unmarshalling debounce item") := rfl
  rw [h4]
  simp

/-- Helper: an integer duration below one second truncates to 0 whole
seconds. -/
theorem ttlSecondsArg_eq_zero (ttlMs : Millis) (h0 : 0 ≤ ttlMs) (h1 : ttlMs < 1000) :
    ttlSecondsArg ttlMs = 0 := by
  unfold ttlSecondsArg
  rw [Int.tdiv_eq_ediv h0 (by norm_num)]
  exact Int.ediv_eq_zero_of_lt h0 h1

/-- C10: whenever either script is invoked, the TTL argument handed to
it is the parsed period truncated to whole seconds
(`int(ttl.Seconds())`, i.e. `Int.tdiv ttlMs 1000`); a period shorter
than one second therefore reaches the scripts as 0, while the
coordinator's own enqueue still uses the full sub-second duration
(`now + ttl + 50 ms + 1 s`). -/
theorem ttl_seconds_truncation :
    (∀ (di : DebounceItem) (k : String) (now ttlMs : Millis) (debounceID : ULID)
        (so : Except GoErr String) (enqErr : Option GoErr) (parse : String → Option ULID),
      (newDebounceGo di (.ok k) now ttlMs debounceID so enqErr parse).ttlArg =
        some (Int.tdiv ttlMs 1000)) ∧
    (∀ (di : DebounceItem) (k : String) (now ttlMs : Millis) (debounceID : ULID)
        (so : Except GoErr Int) (rqErr enqErr : Option GoErr),
      (updateDebounceGo di (.ok k) now ttlMs debounceID so rqErr enqErr).ttlArg =
        some (Int.tdiv ttlMs 1000)) ∧
    (∀ ttlMs : Millis, 0 ≤ ttlMs → ttlMs < 1000 → ttlSecondsArg ttlMs = 0) ∧
    (∀ (di : DebounceItem) (k : String) (now ttlMs : Millis) (debounceID : ULID)
        (parse : String → Option ULID), 0 ≤ ttlMs → ttlMs < 1000 →
      (newDebounceGo di (.ok k) now ttlMs debounceID (.ok "0") none parse).ttlArg = some 0 ∧
      (newDebounceGo di (.ok k) now ttlMs debounceID (.ok "0") none parse).ops =
        [QueueOp.enqueue (queueItem di debounceID) (now + ttlMs + buffer + second)]) := by
  refine ⟨?_, ?_, ttlSecondsArg_eq_zero, ?_⟩
  · intro di k now ttlMs debounceID so enqErr parse
    cases so with
    | error e => rfl
    | ok out =>
      by_cases h : out = "0"
      · subst h
        cases enqErr <;> rfl
      · rcases hp : parse out with _ | v <;> simp [newDebounceGo, ttlSecondsArg, h, hp]
  · intro di k now ttlMs debounceID so rqErr enqErr
    cases so with
    | error e => rfl
    | ok out =>
      by_cases h1 : out = -1
      · simp [updateDebounceGo, ttlSecondsArg, h1]
      by_cases h2 : out = -2
      · simp [updateDebounceGo, ttlSecondsArg, h1, h2]
      by_cases h3 : out = -3
      · simp [updateDebounceGo, ttlSecondsArg, h1, h2, h3]
      cases rqErr with
      | none => simp [updateDebounceGo, ttlSecondsArg, h1, h2, h3]
      | some e =>
        by_cases he : e = GoErr.queueItemAlreadyLeased <;>
          simp [updateDebounceGo, ttlSecondsArg, h1, h2, h3, he]
  · intro di k now ttlMs debounceID parse h0 h1
    constructor
    · show some (ttlSecondsArg ttlMs) = some 0
      rw [ttlSecondsArg_eq_zero ttlMs h0 h1]
    · rfl

/-- Witness for C10 at a 300 ms period: the scripts see 0 seconds while
the enqueue lands at `now + 300 + 50 + 1000`. -/
theorem ttl_seconds_truncation_witness :
    (newDebounceGo demoNewer (.ok "k") 0 300 demoID (.ok "0") none
        (fun _ => none)).ttlArg = some 0 ∧
    (newDebounceGo demoNewer (.ok "k") 0 300 demoID (.ok "0") none
        (fun _ => none)).ops =
      [QueueOp.enqueue (queueItem demoNewer demoID) (0 + 300 + buffer + second)] :=
  ttl_seconds_truncation.2.2.2 demoNewer "k" 0 300 demoID (fun _ => none)
    (by norm_num) (by norm_num)

/-- Helper: one retry step.  With `ErrDebounceExists` from `newDebounce`
and a retryable sentinel from `updateDebounce`, while retries remain the
loop sleeps 750 ms and re-enters the whole flow at `newDebounce` for
attempt `n + 1`. -/
theorem debounceAux_retry_step (newRes : Nat → Option ULID × Option GoErr)
    (updErr : Nat → Option GoErr) (n left : Nat) (id : ULID) (e : GoErr)
    (h1 : newRes n = (some id, some GoErr.debounceExists)) (h2 : updErr n = some e)
    (h3 : isRetryableUpdateErr e = true) :
    debounceAux newRes updErr n (left + 1) =
      ⟨(debounceAux newRes updErr (n + 1) left).outcome,
        (debounceAux newRes updErr (n + 1) left).waitMs + 750⟩ := by
  simp [debounceAux, debounceAttempt, h1, h2, h3]

/-- Helper: with no retries left (the source's `n == 5`), a retryable
sentinel is returned wrapped, without waiting again. -/
theorem debounceAux_exhausted (newRes : Nat → Option ULID × Option GoErr)
    (updErr : Nat → Option GoErr) (n : Nat) (id : ULID) (e : GoErr)
    (h1 : newRes n = (some id, some GoErr.debounceExists)) (h2 : updErr n = some e)
    (h3 : isRetryableUpdateErr e = true) :
    debounceAux newRes updErr n 0 = ⟨some (GoErr.wrap "unable to update debounce" e), 0⟩ := by
  simp [debounceAux, debounceAttempt, h1, h2, h3]

/-- Helper: a non-retryable `updateDebounce` error is returned
immediately, with no wait. -/
theorem debounceAux_immediate (newRes : Nat → Option ULID × Option GoErr)
    (updErr : Nat → Option GoErr) (n left : Nat) (id : ULID) (e : GoErr)
    (h1 : newRes n = (some id, some GoErr.debounceExists)) (h2 : updErr n = some e)
    (h3 : isRetryableUpdateErr e = false) :
    debounceAux newRes updErr n left = ⟨some e, 0⟩ := by
  cases left <;> simp [debounceAux, debounceAttempt, h1, h2, h3]

/-- C2: the create-or-update retry policy.  When `newDebounce` reports
an existing debounce and `updateDebounce` yields `ErrDebounceInProgress`,
`ErrDebounceNotFound` or `context.DeadlineExceeded`, the loop waits
750 ms and restarts the whole flow from `newDebounce`; it restarts at
most 5 times — if the sentinel persists, the total sleep is
5 × 750 ms and the loop returns an error wrapping the last sentinel —
while any other `updateDebounce` error is returned immediately without
retrying. -/
theorem debounce_retry_policy :
    (∀ (newRes : Nat → Option ULID × Option GoErr) (updErr : Nat → Option GoErr)
        (n left : Nat) (id : ULID) (e : GoErr),
      newRes n = (some id, some GoErr.debounceExists) → updErr n = some e →
      isRetryableUpdateErr e = true →
      debounceAux newRes updErr n (left + 1) =
        ⟨(debounceAux newRes updErr (n + 1) left).outcome,
          (debounceAux newRes updErr (n + 1) left).waitMs + 750⟩) ∧
    (∀ (newRes : Nat → Option ULID × Option GoErr) (updErr : Nat → Option GoErr)
        (n left : Nat) (id : ULID) (e : GoErr),
      newRes n = (some id, some GoErr.debounceExists) → updErr n = some e →
      isRetryableUpdateErr e = false →
      debounceAux newRes updErr n left = ⟨some e, 0⟩) ∧
    (∀ (newRes : Nat → Option ULID × Option GoErr) (updErr : Nat → Option GoErr),
      (∀ n, ∃ id, newRes n = (some id, some GoErr.debounceExists)) →
      (∀ n, ∃ e, updErr n = some e ∧ isRetryableUpdateErr e = true) →
      (debounceGo newRes updErr).waitMs = 5 * 750 ∧
      ∃ e, updErr 5 = some e ∧
        (debounceGo newRes updErr).outcome =
          some (GoErr.wrap "unable to update debounce" e)) := by
  refine ⟨debounceAux_retry_step, debounceAux_immediate, ?_⟩
  intro newRes updErr hNew hUpd
  obtain ⟨id0, h0⟩ := hNew 0
  obtain ⟨id1, h1⟩ := hNew 1
  obtain ⟨id2, h2⟩ := hNew 2
  obtain ⟨id3, h3⟩ := hNew 3
  obtain ⟨id4, h4⟩ := hNew 4
  obtain ⟨id5, h5⟩ := hNew 5
  obtain ⟨e0, hu0, hr0⟩ := hUpd 0
  obtain ⟨e1, hu1, hr1⟩ := hUpd 1
  obtain ⟨e2, hu2, hr2⟩ := hUpd 2
  obtain ⟨e3, hu3, hr3⟩ := hUpd 3
  obtain ⟨e4, hu4, hr4⟩ := hUpd 4
  obtain ⟨e5, hu5, hr5⟩ := hUpd 5
  have s0 : debounceAux newRes updErr 0 5 =
      ⟨(debounceAux newRes updErr 1 4).outcome,
        (debounceAux newRes updErr 1 4).waitMs + 750⟩ :=
    debounceAux_retry_step newRes updErr 0 4 id0 e0 h0 hu0 hr0
  have s1 : debounceAux newRes updErr 1 4 =
      ⟨(debounceAux newRes updErr 2 3).outcome,
        (debounceAux newRes updErr 2 3).waitMs + 750⟩ :=
    debounceAux_retry_step newRes updErr 1 3 id1 e1 h1 hu1 hr1
  have s2 : debounceAux newRes updErr 2 3 =
      ⟨(debounceAux newRes updErr 3 2).outcome,
        (debounceAux newRes updErr 3 2).waitMs + 750⟩ :=
    debounceAux_retry_step newRes updErr 2 2 id2 e2 h2 hu2 hr2
  have s3 : debounceAux newRes updErr 3 2 =
      ⟨(debounceAux newRes updErr 4 1).outcome,
        (debounceAux newRes updErr 4 1).waitMs + 750⟩ :=
    debounceAux_retry_step newRes updErr 3 1 id3 e3 h3 hu3 hr3
  have s4 : debounceAux newRes updErr 4 1 =
      ⟨(debounceAux newRes updErr 5 0).outcome,
        (debounceAux newRes updErr 5 0).waitMs + 750⟩ :=
    debounceAux_retry_step newRes updErr 4 0 id4 e4 h4 hu4 hr4
  have s5 : debounceAux newRes updErr 5 0 =
      ⟨some (GoErr.wrap "unable to update debounce" e5), 0⟩ :=
    debounceAux_exhausted newRes updErr 5 id5 e5 h5 hu5 hr5
  have hgo : debounceGo newRes updErr =
      ⟨some (GoErr.wrap "unable to update debounce" e5), 5 * 750⟩ := by
    unfold debounceGo
    rw [s0, s1, s2, s3, s4, s5]
  exact ⟨by rw [hgo], e5, hu5, by rw [hgo]⟩

/-- Witness for C2: with a store whose pointer always exists and whose
update always reports `ErrDebounceNotFound`, the loop sleeps 3750 ms and
wraps the last sentinel; a non-retryable error is returned at once. -/
theorem debounce_retry_policy_witness :
    debounceGo (fun _ => (some demoID, some GoErr.debounceExists))
        (fun _ => some GoErr.debounceNotFound) =
      ⟨some (GoErr.wrap "unable to update debounce" GoErr.debounceNotFound), 5 * 750⟩ ∧
    debounceAux (fun _ => (some demoID, some GoErr.debounceExists))
        (fun _ => some (GoErr.msg "boom")) 0 5 = ⟨some (GoErr.msg "boom"), 0⟩ := by
  constructor
  · obtain ⟨hw, e, he, ho⟩ :=
      debounce_retry_policy.2.2 (fun _ => (some demoID, some GoErr.debounceExists))
        (fun _ => some GoErr.debounceNotFound)
        (fun _ => ⟨demoID, rfl⟩) (fun _ => ⟨GoErr.debounceNotFound, rfl, rfl⟩)
    cases he
    calc debounceGo (fun _ => (some demoID, some GoErr.debounceExists))
          (fun _ => some GoErr.debounceNotFound) =
        ⟨(debounceGo (fun _ => (some demoID, some GoErr.debounceExists))
            (fun _ => some GoErr.debounceNotFound)).outcome,
          (debounceGo (fun _ => (some demoID, some GoErr.debounceExists))
            (fun _ => some GoErr.debounceNotFound)).waitMs⟩ := rfl
      _ = ⟨some (GoErr.wrap "unable to update debounce" GoErr.debounceNotFound), 5 * 750⟩ := by
          rw [ho, hw]
  · exact debounce_retry_policy.2.1 (fun _ => (some demoID, some GoErr.debounceExists))
      (fun _ => some (GoErr.msg "boom")) 0 5 demoID (GoErr.msg "boom") rfl rfl rfl

/-- Helper: reading back a freshly written hash field. -/
theorem lookupItem_setItem (items : List (ULID × DebounceItem)) (id : ULID)
    (it : DebounceItem) : lookupItem (setItem items id it) id = some it := by
  simp [lookupItem, setItem, List.find?]

/-- One invocation of the `updateDebounce` script, as the coordinator
issues it: the incoming item, the whole-seconds TTL argument, the
script-side `now` reading and the incoming event timestamp. -/
structure UpdateCall where
  item : DebounceItem
  ttlSeconds : Int
  nowMs : Millis
  eventMs : Millis
deriving DecidableEq

/-- A sequence of `updateDebounce` script invocations applied to the
store in order. -/
def applyUpdates (st : StoreState) (calls : List UpdateCall) : StoreState :=
  calls.foldl
    (fun s c => (updateDebounceScript s c.item c.ttlSeconds c.nowMs c.eventMs).2) st

/-- Helper: a single `updateDebounce` script call keeps the pointer and
keeps the stored item's timeout (the incoming item is written with the
stored timeout carried over; every refusing branch leaves the store
untouched). -/
theorem updateDebounceScript_step_inv (st : StoreState) (item : DebounceItem)
    (ttlS : Int) (nowMs eventMs : Millis) (ptr : ULID) (T : Millis)
    (hp : st.pointer = some ptr)
    (hit : ∃ it, lookupItem st.items ptr = some it ∧ it.timeout = T) :
    (updateDebounceScript st item ttlS nowMs eventMs).2.pointer = some ptr ∧
    ∃ it, lookupItem (updateDebounceScript st item ttlS nowMs eventMs).2.items ptr =
      some it ∧ it.timeout = T := by
  obtain ⟨it, hl, hT⟩ := hit
  simp only [updateDebounceScript, hp, hl]
  by_cases hev : eventMs < it.event.timestamp
  · rw [if_pos hev]
    exact ⟨hp, it, hl, hT⟩
  · rw [if_neg hev]
    cases hqb : st.queueJobLeased with
    | true =>
      rw [if_pos rfl]
      exact ⟨hp, it, hl, hT⟩
    | false =>
      rw [if_neg Bool.false_ne_true]
      exact ⟨rfl, { item with timeout := it.timeout },
        lookupItem_setItem st.items ptr _, hT⟩

/-- Helper: the timeout of the stored item survives any sequence of
`updateDebounce` script calls, and the pointer still designates it. -/
theorem applyUpdates_preserves_timeout (calls : List UpdateCall) (st : StoreState)
    (ptr : ULID) (T : Millis) (hp : st.pointer = some ptr)
    (hit : ∃ it, lookupItem st.items ptr = some it ∧ it.timeout = T) :
    (applyUpdates st calls).pointer = some ptr ∧
    ∃ it, lookupItem (applyUpdates st calls).items ptr = some it ∧ it.timeout = T := by
  induction calls generalizing st with
  | nil => exact ⟨hp, hit⟩
  | cons c rest ih =>
    have step :=
      updateDebounceScript_step_inv st c.item c.ttlSeconds c.nowMs c.eventMs ptr T hp hit
    exact ih _ step.1 step.2

/-- C1: the debounce timeout is fixed at creation and caps every
reschedule.  (i) `newDebounce` stamps the item's `Timeout` with
`now + fn.Debounce.Timeout` in unix milliseconds (and leaves it alone
when the function has none); (ii) every sequence of `updateDebounce`
script calls for the same pointer preserves that stored timeout; and
(iii) a successful update (script reply outside the sentinel codes,
requeue accepted) requeues the job to
`now + min(ttl, remaining-to-timeout) + 50 ms + 1 s`, which never lies
past the stored timeout plus those fixed buffers. -/
theorem timeout_fixed_at_creation :
    (∀ (di : DebounceItem) (t nowT : Millis),
      newDebounceItem di (some t) nowT = { di with timeout := nowT + t }) ∧
    (∀ (di : DebounceItem) (nowT : Millis), newDebounceItem di none nowT = di) ∧
    (∀ (calls : List UpdateCall) (st : StoreState) (ptr : ULID) (T : Millis),
      st.pointer = some ptr →
      (∃ it, lookupItem st.items ptr = some it ∧ it.timeout = T) →
      (applyUpdates st calls).pointer = some ptr ∧
      ∃ it, lookupItem (applyUpdates st calls).items ptr = some it ∧ it.timeout = T) ∧
    (∀ (st : StoreState) (di : DebounceItem) (k : String)
        (now nowArg ttlMs : Millis) (debounceID ptr : ULID) (stored : DebounceItem)
        (out : Int),
      st.pointer = some ptr → lookupItem st.items ptr = some stored →
      stored.timeout ≠ 0 → now ≤ nowArg →
      (updateDebounceScript st di (ttlSecondsArg ttlMs) nowArg di.event.timestamp).1 = out →
      out ≠ -1 → out ≠ -2 → out ≠ -3 →
      (updateDebounceFull st di (.ok k) now nowArg ttlMs debounceID none none).1.ops =
        [QueueOp.requeueByJobID debounceID.str (now + second * out + buffer + second)] ∧
      now + second * out + buffer + second ≤ stored.timeout + buffer + second) := by
  refine ⟨fun di t nowT => rfl, fun di nowT => rfl, applyUpdates_preserves_timeout, ?_⟩
  intro st di k now nowArg ttlMs debounceID ptr stored out hp hl hT hnow hout h1 h2 h3
  have hscript := hout
  simp only [updateDebounceScript, hp, hl] at hscript
  by_cases hev : di.event.timestamp < stored.event.timestamp
  · rw [if_pos hev] at hscript
    exact absurd hscript.symm h2
  rw [if_neg hev] at hscript
  cases hqb : st.queueJobLeased with
  | true =>
    rw [hqb, if_pos rfl] at hscript
    exact absurd hscript.symm h1
  | false =>
    rw [hqb, if_neg Bool.false_ne_true] at hscript
    have hout_eq :
        out = min (ttlSecondsArg ttlMs) ((stored.timeout - nowArg) / 1000) := by
      rw [← hscript]
      simp [hT]
    have hfull :
        (updateDebounceFull st di (.ok k) now nowArg ttlMs debounceID none none).1 =
          updateDebounceGo di (.ok k) now ttlMs debounceID (.ok out) none none := by
      simp only [updateDebounceFull]
      rw [hout]
    refine ⟨?_, ?_⟩
    · rw [hfull]
      simp [updateDebounceGo, h1, h2, h3]
    · have hle : out ≤ (stored.timeout - nowArg) / 1000 := by
        rw [hout_eq]
        exact min_le_right _ _
      have hfloor : ((stored.timeout - nowArg) / 1000) * 1000 ≤ stored.timeout - nowArg :=
        Int.ediv_mul_le (stored.timeout - nowArg) (by norm_num)
      have hmul : out * 1000 ≤ ((stored.timeout - nowArg) / 1000) * 1000 :=
        mul_le_mul_of_nonneg_right hle (by norm_num)
      show now + 1000 * out + 50 + 1000 ≤ stored.timeout + 50 + 1000
      linarith

/-- Witness for C1: the sample store (`timeout_ms = 5000`) keeps its
timeout through an update with `demoNewer` and the successful requeue
(script reply `min(10, 4) = 4`) lands at 5250 ms ≤ 5000 + 1050 ms. -/
theorem timeout_fixed_at_creation_witness :
    newDebounceItem demoNewer (some 4800) 200 = { demoNewer with timeout := 5000 } ∧
    ((applyUpdates demoState [⟨demoNewer, 5, 200, 200⟩]).pointer = some demoID ∧
      ∃ it, lookupItem (applyUpdates demoState [⟨demoNewer, 5, 200, 200⟩]).items demoID =
        some it ∧ it.timeout = 5000) ∧
    ((updateDebounceFull demoState demoNewer (.ok "k") 200 300 10000 demoID
        none none).1.ops =
      [QueueOp.requeueByJobID demoID.str (200 + second * 4 + buffer + second)] ∧
      200 + second * 4 + buffer + second ≤ demoStored.timeout + buffer + second) :=
  ⟨timeout_fixed_at_creation.1 demoNewer 4800 200,
    timeout_fixed_at_creation.2.2.1 [⟨demoNewer, 5, 200, 200⟩] demoState demoID 5000
      rfl ⟨demoStored, by decide, by decide⟩,
    timeout_fixed_at_creation.2.2.2 demoState demoNewer "k" 200 300 10000 demoID demoID
      demoStored 4 rfl (by decide) (by decide) (by decide) (by decide)
      (by decide) (by decide) (by decide)⟩

end Inngest.Debounce
